import Mathlib

/-
Verification of the traffic-signal simulator: a shallow embedding of the
fuzzy-logic decision engine (fuzzy_logic.py), the vehicle kinematics model
(car.py) and the signal-phase state machine (app.py, update_fsm), with
theorems settling the specification claims.

Machine floats are embedded as exact rationals (ℚ); all constants of the
source are decimal literals, which ℚ represents exactly.
-/

-- ===========================================================================
-- fuzzy_logic.py : FuzzyLogicController
-- ===========================================================================

/-- Trapezoidal membership function (FuzzyLogicController.trapmf).
The branch order mirrors the source: the zero region `x ≤ a ∨ x ≥ d` is
tested first, then the plateau, then the two ramps. -/
def trapmf (x : ℚ) (abcd : ℚ × ℚ × ℚ × ℚ) : ℚ :=
  let (a, b, c, d) := abcd
  if x ≤ a ∨ x ≥ d then 0
  else if b ≤ x ∧ x ≤ c then 1
  else if a < x ∧ x < b then (x - a) / (b - a)
  else if c < x ∧ x < d then (d - x) / (d - c)
  else 0

def SATURATION_HEADWAY : ℚ := 2.0

def PATIENCE_THRESHOLD : ℚ := 45.0

def CLEAR_SHORT : ℚ × ℚ × ℚ × ℚ := (0, 0, 6, 14)

def CLEAR_MED : ℚ × ℚ × ℚ × ℚ := (10, 18, 30, 45)

def CLEAR_LONG : ℚ × ℚ × ℚ × ℚ := (30, 45, 80, 80)

def IMBAL_LOW : ℚ × ℚ × ℚ × ℚ := (0, 0, 0.8, 2.0)

def IMBAL_MED : ℚ × ℚ × ℚ × ℚ := (1.5, 2.5, 4.0, 6.0)

def IMBAL_HIGH : ℚ × ℚ × ℚ × ℚ := (4.0, 6.0, 15, 15)

def URG_LOW : ℚ × ℚ × ℚ × ℚ := (0, 0, 0.4, 1.0)

def URG_MED : ℚ × ℚ × ℚ × ℚ := (0.7, 1.2, 1.8, 2.5)

def URG_HIGH : ℚ × ℚ × ℚ × ℚ := (1.8, 2.5, 6.0, 6.0)

/-- RULE_WEIGHTS['keep_clearing'] -/
def W_KEEP_CLEARING : ℚ := 1.8

/-- RULE_WEIGHTS['keep_efficient'] -/
def W_KEEP_EFFICIENT : ℚ := 1.3

/-- RULE_WEIGHTS['keep_batch'] -/
def W_KEEP_BATCH : ℚ := 1.6

/-- RULE_WEIGHTS['switch_imbalance'] -/
def W_SWITCH_IMBALANCE : ℚ := 1.1

/-- RULE_WEIGHTS['switch_urgent'] -/
def W_SWITCH_URGENT : ℚ := 1.3

/-- RULE_WEIGHTS['switch_empty'] -/
def W_SWITCH_EMPTY : ℚ := 1.6

/-- RULE_WEIGHTS['conflict'] -/
def W_CONFLICT : ℚ := 0.6

/-- RULE_WEIGHTS['balance'] -/
def W_BALANCE : ℚ := 0.8

def OUT_SWITCH_CENTROID : ℚ := 15

def OUT_BALANCE_CENTROID : ℚ := 50

def OUT_KEEP_CENTROID : ℚ := 85

/-- FuzzyLogicController.calc_clearance_time -/
def calc_clearance_time (queue_length : ℚ) : ℚ :=
  queue_length * SATURATION_HEADWAY

/-- FuzzyLogicController.calc_imbalance_ratio -/
def calc_imbalance_ratio (active_q max_waiting_q : ℚ) : ℚ :=
  max_waiting_q / (active_q + 1)

/-- FuzzyLogicController.calc_urgency_index -/
def calc_urgency_index (max_wait_time max_waiting_q : ℚ) : ℚ :=
  (max_wait_time / PATIENCE_THRESHOLD) * (1 + max_waiting_q / 10)

/-- FuzzyLogicController.calculate.  The returned tuple mirrors the source:
score first, then the three membership triples (clearance, imbalance,
urgency), the unused placeholder triple, and the rule-activation tuple.
Python `min(a, b, c)` / `max(...)` on several arguments is written as the
left-nested binary `min` / `max`. -/
def calculate (active_q max_waiting_q max_wait_time flow_ratio : ℚ) :
    ℚ × (ℚ × ℚ × ℚ) × (ℚ × ℚ × ℚ) × (ℚ × ℚ × ℚ) × (ℚ × ℚ × ℚ) ×
      (ℚ × ℚ × ℚ × ℚ × ℚ × ℚ × ℚ × ℚ × ℚ × ℚ) :=
  let clearance_time := calc_clearance_time active_q
  let imbalance_ratio := calc_imbalance_ratio active_q max_waiting_q
  let urgency_index := calc_urgency_index max_wait_time max_waiting_q
  let mu_clear_short := trapmf clearance_time CLEAR_SHORT
  let mu_clear_med := trapmf clearance_time CLEAR_MED
  let mu_clear_long := trapmf clearance_time CLEAR_LONG
  let mu_imbal_low := trapmf imbalance_ratio IMBAL_LOW
  let mu_imbal_med := trapmf imbalance_ratio IMBAL_MED
  let mu_imbal_high := trapmf imbalance_ratio IMBAL_HIGH
  let mu_urg_low := trapmf urgency_index URG_LOW
  let mu_urg_med := trapmf urgency_index URG_MED
  let mu_urg_high := trapmf urgency_index URG_HIGH
  let active_queue_factor := min 1 (active_q / 10)
  let r1_clearing := min mu_clear_long (1 - mu_urg_high) * W_KEEP_CLEARING *
    (1 + active_queue_factor * 0.5)
  let r1_efficient := min (min mu_imbal_low mu_clear_med) (1 - mu_urg_high) * W_KEEP_EFFICIENT
  let r1_batch := min (min (max mu_clear_med mu_clear_long) mu_imbal_low) mu_urg_low *
    W_KEEP_BATCH * (1 + active_queue_factor * 0.3)
  let r1_total := max (max r1_clearing r1_efficient) r1_batch
  let switch_damping := max 0.3 (1 - active_q / 25)
  let r2_imbalance := min mu_imbal_high (max mu_clear_short mu_clear_med) *
    W_SWITCH_IMBALANCE * switch_damping
  let r2_urgent := mu_urg_high * W_SWITCH_URGENT * switch_damping
  let r2_empty := min mu_clear_short (max mu_imbal_med mu_imbal_high) * W_SWITCH_EMPTY
  let r2_combined := min mu_imbal_med mu_urg_med * W_BALANCE * switch_damping
  let r2_total := max (max (max r2_imbalance r2_urgent) r2_empty) r2_combined
  let r3_conflict := min mu_clear_long mu_urg_high * W_CONFLICT
  let r3_balanced := min (min mu_clear_med mu_imbal_med) mu_urg_med * W_BALANCE
  let r3_total := max r3_conflict r3_balanced
  let num := r1_total * OUT_KEEP_CENTROID + r2_total * OUT_SWITCH_CENTROID +
    r3_total * OUT_BALANCE_CENTROID
  let den := r1_total + r2_total + r3_total + 0.001
  let score := num / den
  let batch_bonus :=
    if active_q > 3 ∧ urgency_index < 2.0 then
      min 25 ((active_q - 3) * 1.5) + (if active_q > 15 then min 10 ((active_q - 15) * 2) else 0)
    else 0
  let empty_penalty : ℚ := if active_q ≤ 1 ∧ max_waiting_q > 2 then -25 else 0
  let urgency_penalty : ℚ := if urgency_index > 2.5 then -8 * (urgency_index - 2.5) else 0
  let score := max 0 (min 100 (score + batch_bonus + empty_penalty + urgency_penalty))
  (score,
   (mu_clear_short, mu_clear_med, mu_clear_long),
   (mu_imbal_low, mu_imbal_med, mu_imbal_high),
   (mu_urg_low, mu_urg_med, mu_urg_high),
   (0, 0, 0),
   (r1_clearing, r1_efficient, r1_batch, r2_imbalance, r2_empty, r2_urgent,
    r3_balanced, r3_conflict, r3_total, r1_total))

-- ===========================================================================
-- car.py : Car
-- ===========================================================================

inductive Lane where
  | N
  | S
  | E
  | W
deriving DecidableEq

inductive LightColor where
  | red
  | yellow
  | green
deriving DecidableEq

/-- Car entity (car.py).  Display-only geometry (w, h, cx, cy, gap, length,
width, stop_line_offset) is omitted; the derived stop line coordinates
stop_x / stop_y, which Car.update reads, are kept as fields. -/
structure Car where
  lane : Lane
  x : ℚ
  y : ℚ
  dx : ℚ
  dy : ℚ
  stop_x : ℚ
  stop_y : ℚ
  speed : ℚ
  wait_time : ℕ
  counted : Bool
  is_virtual : Bool

/-- Car.__init__ sets max_speed = 8 on every car. -/
def max_speed : ℚ := 8

/-- Car.__init__ sets accel = 0.5 on every car. -/
def accel : ℚ := 0.5

/-- Car.__init__ sets decel = 1.0 on every car. -/
def decel : ℚ := 1.0

/-- The desired target speed computed inside Car.update: stop-line logic for
red/yellow lights, then collision avoidance against the car ahead.  The
source compares `math.sqrt(dist²) < 24` and `< 50`; with a non-negative
radicand that is equivalent to comparing the squared distance with 24² and
50², which is how it is written here. -/
def targetSpeedOf (self : Car) (light_color : LightColor) (car_ahead : Option Car) : ℚ :=
  let target_speed : ℚ := max_speed
  let dist_to_stop : ℚ :=
    match self.lane with
    | .N => self.stop_y - self.y
    | .S => self.y - self.stop_y
    | .W => self.stop_x - self.x
    | .E => self.x - self.stop_x
  let target_speed :=
    if dist_to_stop > -10 ∧
        ((light_color = .red ∨ light_color = .yellow) ∧ dist_to_stop < 50) then 0
    else target_speed
  match car_ahead with
  | none => target_speed
  | some ca =>
    if ca.is_virtual = true then target_speed
    else
      let dist_sq := (self.x - ca.x) ^ 2 + (self.y - ca.y) ^ 2
      if dist_sq < 24 ^ 2 then 0
      else if dist_sq < 50 ^ 2 then min target_speed ca.speed
      else target_speed

/-- Car.update: virtual cars return immediately; otherwise the speed moves
toward the target by at most accel upward or decel downward, the position
advances by heading × speed, and wait_time increments while speed < 0.5. -/
def Car.update (self : Car) (light_color : LightColor) (car_ahead : Option Car) : Car :=
  if self.is_virtual = true then self
  else
    let target_speed := targetSpeedOf self light_color car_ahead
    let speed' :=
      if self.speed < target_speed then min (self.speed + accel) target_speed
      else if self.speed > target_speed then max (self.speed - decel) target_speed
      else self.speed
    { self with
      speed := speed'
      x := self.x + self.dx * speed'
      y := self.y + self.dy * speed'
      wait_time := if speed' < 0.5 then self.wait_time + 1 else self.wait_time }

-- ===========================================================================
-- app.py : UltimateTrafficApp FSM state and update_fsm
-- ===========================================================================

inductive FSMPhase where
  | GREEN
  | YELLOW
  | ALL_RED
deriving DecidableEq

/-- The FSM-related state of UltimateTrafficApp (app.py __init__). -/
structure FSMState where
  lights : Lane → LightColor
  current_phase_idx : Fin 4
  fsm_state : FSMPhase
  state_timer : ℕ
  current_min_green : ℕ
  current_max_green : ℕ

/-- self.phase_order = ['N', 'S', 'E', 'W'] -/
def phase_order : List Lane := [.N, .S, .E, .W]

/-- The per-tick inputs that update_fsm reads besides the FSM state: the
queue counts (physical + virtual, as computed by run_simulation), the
maximum wait in seconds, the flow ratio, and the live car list with the
cached canvas dimensions (used only for the intersection-box clearance
check). -/
structure TickInput where
  queues : Lane → ℕ
  max_wait_time_sec : ℚ
  flow_ratio : ℚ
  cars : List Car
  canvas_width : ℚ
  canvas_height : ℚ

/-- active_lane = self.phase_order[self.current_phase_idx] -/
def activeLane (s : FSMState) : Lane :=
  phase_order.get s.current_phase_idx

/-- active_load = queues[active_lane] -/
def activeLoad (s : FSMState) (inp : TickInput) : ℕ :=
  inp.queues (activeLane s)

/-- max_waiting = max(queues[l] for l in phase_order if l != active_lane).
The list is never empty, and queue counts are naturals, so folding max
over 0 agrees with Python's max. -/
def max_waiting (queues : Lane → ℕ) (active : Lane) : ℕ :=
  ((phase_order.filter fun l => decide (l ≠ active)).map queues).foldr max 0

def maxWaitingOf (s : FSMState) (inp : TickInput) : ℕ :=
  max_waiting inp.queues (activeLane s)

/-- The score component of the fuzzy call made by update_fsm. -/
def fuzzyScore (s : FSMState) (inp : TickInput) : ℚ :=
  (calculate (activeLoad s inp) (maxWaitingOf s inp) inp.max_wait_time_sec inp.flow_ratio).1

/-- The adaptive min-green bound (update_fsm, "Adaptive timers"). -/
def minGreenOf (q : ℕ) : ℕ :=
  if q ≤ 2 then 30
  else if q ≤ 5 then 50
  else min 120 (40 + q * 8)

/-- The adaptive max-green bound (update_fsm). -/
def maxGreenOf (q : ℕ) : ℕ :=
  min 300 (100 + q * 15)

/-- The ALL_RED clearance check: any car inside the central box
(cx ± 100) × (cy ± 100). -/
def boxOccupied (inp : TickInput) : Bool :=
  let cx := inp.canvas_width / 2
  let cy := inp.canvas_height / 2
  inp.cars.any fun c =>
    decide (cx - 100 < c.x ∧ c.x < cx + 100 ∧ cy - 100 < c.y ∧ c.y < cy + 100)

/-- A single assignment `self.lights[l] = c` on the lights mapping. -/
def setLight (lights : Lane → LightColor) (l : Lane) (c : LightColor) : Lane → LightColor :=
  fun l' => if l' = l then c else lights l'

/-- UltimateTrafficApp.update_fsm.  The Python `should_switch` flag is the
inlined three-way disjunction.  In the GREEN switch branch the source first
sets the active light green and then overwrites it with yellow; both writes
are kept. -/
def update_fsm (s : FSMState) (inp : TickInput) : FSMState :=
  let timer := s.state_timer + 1
  let active_lane := activeLane s
  let active_load := activeLoad s inp
  let mw := maxWaitingOf s inp
  let score := fuzzyScore s inp
  let min_green := minGreenOf active_load
  let max_green := maxGreenOf active_load
  match s.fsm_state with
  | .GREEN =>
    if (timer > min_green ∧ score < 35) ∨ timer > max_green ∨
        (active_load = 0 ∧ mw > 0 ∧ timer > 20) then
      { s with
        lights := setLight (setLight s.lights active_lane .green) active_lane .yellow
        fsm_state := .YELLOW
        state_timer := 0
        current_min_green := min_green
        current_max_green := max_green }
    else
      { s with
        lights := setLight s.lights active_lane .green
        state_timer := timer
        current_min_green := min_green
        current_max_green := max_green }
  | .YELLOW =>
    if timer > 45 then
      { s with
        lights := setLight s.lights active_lane .red
        fsm_state := .ALL_RED
        state_timer := 0
        current_min_green := min_green
        current_max_green := max_green }
    else
      { s with
        state_timer := timer
        current_min_green := min_green
        current_max_green := max_green }
  | .ALL_RED =>
    if boxOccupied inp = false ∧ timer > 15 then
      { s with
        current_phase_idx := s.current_phase_idx + 1
        fsm_state := .GREEN
        state_timer := 0
        current_min_green := min_green
        current_max_green := max_green }
    else
      { s with
        state_timer := timer
        current_min_green := min_green
        current_max_green := max_green }

/-- The initial configuration from UltimateTrafficApp.__init__: all lights
red, phase index 0, fsm_state GREEN, timer 0, min/max green 50/200. -/
def initState : FSMState :=
  { lights := fun _ => .red
    current_phase_idx := 0
    fsm_state := .GREEN
    state_timer := 0
    current_min_green := 50
    current_max_green := 200 }

/-- States reachable from the initial configuration by update_fsm steps. -/
inductive Reachable : FSMState → Prop where
  | init : Reachable initState
  | step (s : FSMState) (inp : TickInput) (h : Reachable s) : Reachable (update_fsm s inp)

/-- Auxiliary invariant: every non-active light is red, and in ALL_RED the
active light is red as well. -/
def FSMInv (s : FSMState) : Prop :=
  (∀ l : Lane, l ≠ activeLane s → s.lights l = .red) ∧
  (s.fsm_state = .ALL_RED → s.lights (activeLane s) = .red)

-- Concrete inputs used by the witnesses.

/-- An idle tick: no queues, no cars, no waiting. -/
def inp0 : TickInput :=
  { queues := fun _ => 0
    max_wait_time_sec := 0
    flow_ratio := 0
    cars := []
    canvas_width := 700
    canvas_height := 800 }

/-- A tick with five cars queued on the S approach that have waited 50 s. -/
def inp6 : TickInput :=
  { queues := fun l => match l with | .S => 5 | _ => 0
    max_wait_time_sec := 50
    flow_ratio := 1
    cars := []
    canvas_width := 700
    canvas_height := 800 }

/-- A GREEN state whose timer has reached 96 ticks. -/
def s6 : FSMState :=
  { initState with state_timer := 96 }

/-- An ALL_RED state whose timer has reached 20 ticks. -/
def sAR : FSMState :=
  { lights := fun _ => .red
    current_phase_idx := 0
    fsm_state := .ALL_RED
    state_timer := 20
    current_min_green := 30
    current_max_green := 100 }

/-- A concrete non-virtual car heading S-ward at speed 3. -/
def cA : Car :=
  { lane := .N
    x := 0
    y := 0
    dx := 0
    dy := 1
    stop_x := 0
    stop_y := 100
    speed := 3
    wait_time := 0
    counted := false
    is_virtual := false }

/-- A concrete virtual car. -/
def vCar : Car :=
  { lane := .N
    x := 5
    y := 7
    dx := 0
    dy := 1
    stop_x := 0
    stop_y := 100
    speed := 2
    wait_time := 4
    counted := true
    is_virtual := true }

-- ===========================================================================
-- Theorems
-- ===========================================================================

/-- Concrete evaluation of the fuzzy engine on an empty active lane with
five waiting cars that have waited 50 s: the clamp floors the score at 0. -/
theorem calculate_empty_eval : (calculate 0 5 50 1).1 = 0 := by
  norm_num [calculate, calc_clearance_time, calc_imbalance_ratio, calc_urgency_index,
    trapmf, CLEAR_SHORT, CLEAR_MED, CLEAR_LONG, IMBAL_LOW, IMBAL_MED, IMBAL_HIGH,
    URG_LOW, URG_MED, URG_HIGH, SATURATION_HEADWAY, PATIENCE_THRESHOLD,
    W_KEEP_CLEARING, W_KEEP_EFFICIENT, W_KEEP_BATCH, W_SWITCH_IMBALANCE,
    W_SWITCH_URGENT, W_SWITCH_EMPTY, W_CONFLICT, W_BALANCE,
    OUT_SWITCH_CENTROID, OUT_BALANCE_CENTROID, OUT_KEEP_CENTROID, min_def, max_def]

/-- Concrete evaluation of the fuzzy engine on a 20-car active batch with
little waiting pressure: the clamp caps the score at 100. -/
theorem calculate_batch_eval : (calculate 20 2 5 1).1 = 100 := by
  norm_num [calculate, calc_clearance_time, calc_imbalance_ratio, calc_urgency_index,
    trapmf, CLEAR_SHORT, CLEAR_MED, CLEAR_LONG, IMBAL_LOW, IMBAL_MED, IMBAL_HIGH,
    URG_LOW, URG_MED, URG_HIGH, SATURATION_HEADWAY, PATIENCE_THRESHOLD,
    W_KEEP_CLEARING, W_KEEP_EFFICIENT, W_KEEP_BATCH, W_SWITCH_IMBALANCE,
    W_SWITCH_URGENT, W_SWITCH_EMPTY, W_CONFLICT, W_BALANCE,
    OUT_SWITCH_CENTROID, OUT_BALANCE_CENTROID, OUT_KEEP_CENTROID, min_def, max_def]

/-- Claim C1: for every call to calculate with non-negative finite
arguments, the score returned as the first component of the result tuple
lies in [0, 100] (the final clamp guarantees it). -/
theorem calculate_score_in_range (active_q max_waiting_q max_wait_time flow_ratio : ℚ)
    (h1 : 0 ≤ active_q) (h2 : 0 ≤ max_waiting_q) (h3 : 0 ≤ max_wait_time)
    (h4 : 0 ≤ flow_ratio) :
    0 ≤ (calculate active_q max_waiting_q max_wait_time flow_ratio).1 ∧
    (calculate active_q max_waiting_q max_wait_time flow_ratio).1 ≤ 100 := by
  simp only [calculate]
  exact ⟨le_max_left _ _, max_le (by norm_num) (min_le_left _ _)⟩

/-- Witness for C1 at the concrete input (0, 5, 50, 1). -/
theorem calculate_score_in_range_witness :
    0 ≤ (calculate 0 5 50 1).1 ∧ (calculate 0 5 50 1).1 ≤ 100 :=
  calculate_score_in_range 0 5 50 1 (by norm_num) (by norm_num) (by norm_num) (by norm_num)

/-- Claim C3, counterexample: for the engine quadruple CLEAR_SHORT =
(0, 0, 6, 14), which satisfies a ≤ b ≤ c ≤ d, the input x = 0 lies on the
claimed plateau b ≤ x ≤ c, yet trapmf returns 0 rather than 1, because the
zero region x ≤ a is tested first. -/
theorem trapmf_plateau_counterexample :
    CLEAR_SHORT.1 ≤ CLEAR_SHORT.2.1 ∧ CLEAR_SHORT.2.1 ≤ CLEAR_SHORT.2.2.1 ∧
    CLEAR_SHORT.2.2.1 ≤ CLEAR_SHORT.2.2.2 ∧
    CLEAR_SHORT.2.1 ≤ 0 ∧ (0 : ℚ) ≤ CLEAR_SHORT.2.2.1 ∧
    trapmf 0 CLEAR_SHORT = 0 ∧ trapmf 0 CLEAR_SHORT ≠ 1 := by
  refine ⟨?_, ?_, ?_, ?_, ?_, ?_, ?_⟩ <;> norm_num [trapmf, CLEAR_SHORT]

/-- Claim C3 as amended: for a ≤ b ≤ c ≤ d, trapmf is 0 for x ≤ a and for
x ≥ d (this zero region takes precedence), ramps linearly on (a, b), equals
1 on the part of [b, c] with a < x < d, and ramps linearly down on (c, d). -/
theorem trapmf_shape (a b c d : ℚ) (hab : a ≤ b) (hbc : b ≤ c) (hcd : c ≤ d) :
    (∀ x : ℚ, x ≤ a ∨ d ≤ x → trapmf x (a, b, c, d) = 0) ∧
    (∀ x : ℚ, a < x → x < b → trapmf x (a, b, c, d) = (x - a) / (b - a)) ∧
    (∀ x : ℚ, b ≤ x → x ≤ c → a < x → x < d → trapmf x (a, b, c, d) = 1) ∧
    (∀ x : ℚ, c < x → x < d → trapmf x (a, b, c, d) = (d - x) / (d - c)) := by
  refine ⟨?_, ?_, ?_, ?_⟩
  · intro x hx
    simp only [trapmf]
    rw [if_pos hx]
  · intro x h1 h2
    have hz : ¬(x ≤ a ∨ x ≥ d) := by
      push_neg
      exact ⟨h1, lt_of_lt_of_le h2 (le_trans hbc hcd)⟩
    have hp : ¬(b ≤ x ∧ x ≤ c) := fun h => absurd h2 (not_lt.mpr h.1)
    simp only [trapmf]
    rw [if_neg hz, if_neg hp, if_pos ⟨h1, h2⟩]
  · intro x hbx hxc hax hxd
    have hz : ¬(x ≤ a ∨ x ≥ d) := by
      push_neg
      exact ⟨hax, hxd⟩
    simp only [trapmf]
    rw [if_neg hz, if_pos ⟨hbx, hxc⟩]
  · intro x hcx hxd
    have hz : ¬(x ≤ a ∨ x ≥ d) := by
      push_neg
      exact ⟨lt_of_le_of_lt (le_trans hab hbc) hcx, hxd⟩
    have hp : ¬(b ≤ x ∧ x ≤ c) := fun h => absurd hcx (not_lt.mpr h.2)
    have hr : ¬(a < x ∧ x < b) :=
      fun h => absurd h.2 (not_lt.mpr (le_trans hbc (le_of_lt hcx)))
    simp only [trapmf]
    rw [if_neg hz, if_neg hp, if_neg hr, if_pos ⟨hcx, hxd⟩]

/-- Witness for the amended C3 at the engine quadruple CLEAR_MED and
x = 20, on the interior of the plateau. -/
theorem trapmf_shape_witness : trapmf 20 CLEAR_MED = 1 :=
  (trapmf_shape 10 18 30 45 (by norm_num) (by norm_num) (by norm_num)).2.2.1 20
    (by norm_num) (by norm_num) (by norm_num) (by norm_num)

/-- Claim C7: with active_queue = 0, max_other_queue = 5, max_wait = 50 s,
flow_ratio = 1, the engine's score is strictly below the switch
threshold 35. -/
theorem fuzzy_empty_lane_switches : (calculate 0 5 50 1).1 < 35 := by
  rw [calculate_empty_eval]
  norm_num

/-- Claim C8: with active_queue = 20, max_other_queue = 2, max_wait = 5 s,
flow_ratio = 1, the engine's score is strictly above 65. -/
theorem fuzzy_large_batch_keeps : (calculate 20 2 5 1).1 > 65 := by
  rw [calculate_batch_eval]
  norm_num

-- FSM invariant development (C2).

theorem inv_init : FSMInv initState := by
  constructor
  · intro l _
    rfl
  · intro _
    rfl

theorem inv_step (s : FSMState) (inp : TickInput) (h : FSMInv s) :
    FSMInv (update_fsm s inp) := by
  obtain ⟨h1, h2⟩ := h
  cases hst : s.fsm_state with
  | GREEN =>
    simp only [update_fsm, hst]
    split_ifs with hsw
    · refine ⟨fun l hl => ?_, fun hc => nomatch hc⟩
      dsimp only [activeLane] at hl h1 ⊢
      dsimp only [setLight]
      rw [if_neg hl, if_neg hl]
      exact h1 l hl
    · refine ⟨fun l hl => ?_, fun hc => nomatch hc⟩
      dsimp only [activeLane] at hl h1 ⊢
      dsimp only [setLight]
      rw [if_neg hl]
      exact h1 l hl
  | YELLOW =>
    simp only [update_fsm, hst]
    split_ifs with h45
    · refine ⟨fun l hl => ?_, fun _ => ?_⟩
      · dsimp only [activeLane] at hl h1 ⊢
        dsimp only [setLight]
        rw [if_neg hl]
        exact h1 l hl
      · dsimp only [activeLane, setLight]
        rw [if_pos rfl]
    · refine ⟨fun l hl => ?_, fun hc => nomatch hc⟩
      dsimp only [activeLane] at hl h1 ⊢
      exact h1 l hl
  | ALL_RED =>
    simp only [update_fsm, hst]
    split_ifs with hadv
    · refine ⟨fun l _ => ?_, fun hc => nomatch hc⟩
      by_cases hl0 : l = activeLane s
      · rw [hl0]
        exact h2 hst
      · exact h1 l hl0
    · refine ⟨fun l hl => ?_, fun _ => ?_⟩
      · dsimp only [activeLane] at hl h1 ⊢
        exact h1 l hl
      · dsimp only [activeLane] at h2 ⊢
        exact h2 hst

theorem reachable_inv (s : FSMState) (h : Reachable s) : FSMInv s := by
  induction h with
  | init => exact inv_init
  | step s inp h ih => exact inv_step s inp ih

/-- Claim C2: in every state reachable from the initial all-red
configuration by update_fsm steps, at most one approach's light is
non-red (green or yellow); equivalently any two non-red approaches
coincide, so every other approach is red. -/
theorem fsm_lights_exclusive (s : FSMState) (hs : Reachable s) (l₁ l₂ : Lane)
    (h₁ : s.lights l₁ ≠ LightColor.red) (h₂ : s.lights l₂ ≠ LightColor.red) :
    l₁ = l₂ := by
  obtain ⟨ha, -⟩ := reachable_inv s hs
  by_cases e₁ : l₁ = activeLane s
  · by_cases e₂ : l₂ = activeLane s
    · rw [e₁, e₂]
    · exact absurd (ha l₂ e₂) h₂
  · exact absurd (ha l₁ e₁) h₁

/-- Witness for C2 one step after the initial state, where the N light has
just turned green. -/
theorem fsm_lights_exclusive_witness : Lane.N = Lane.N :=
  fsm_lights_exclusive (update_fsm initState inp0)
    (Reachable.step initState inp0 Reachable.init) Lane.N Lane.N
    (by decide) (by decide)

-- Adaptive green bounds (C5).

theorem update_fsm_sets_bounds (s : FSMState) (inp : TickInput) :
    (update_fsm s inp).current_min_green = minGreenOf (activeLoad s inp) ∧
    (update_fsm s inp).current_max_green = maxGreenOf (activeLoad s inp) := by
  cases hst : s.fsm_state <;> simp only [update_fsm, hst] <;> split_ifs <;> exact ⟨rfl, rfl⟩

/-- Claim C5: every update_fsm tick stores the adaptive bounds computed from
the active approach's queue length q; min-green is 30 for q ≤ 2 and follows
min(120, 40 + 8q) for q ≥ 6; max-green is min(300, 100 + 15q) for every q;
in particular q = 7 gives min-green 96 and max-green 205. -/
theorem adaptive_green_bounds (s : FSMState) (inp : TickInput) :
    ((update_fsm s inp).current_min_green = minGreenOf (activeLoad s inp) ∧
     (update_fsm s inp).current_max_green = maxGreenOf (activeLoad s inp)) ∧
    (∀ q : ℕ, q ≤ 2 → minGreenOf q = 30) ∧
    (∀ q : ℕ, 6 ≤ q → minGreenOf q = min 120 (40 + q * 8)) ∧
    (∀ q : ℕ, maxGreenOf q = min 300 (100 + q * 15)) ∧
    minGreenOf 7 = 96 ∧ maxGreenOf 7 = 205 := by
  refine ⟨update_fsm_sets_bounds s inp, ?_, ?_, fun q => rfl, by decide, by decide⟩
  · intro q hq
    simp [minGreenOf, hq]
  · intro q hq
    have hq2 : ¬(q ≤ 2) := by omega
    have hq5 : ¬(q ≤ 5) := by omega
    simp [minGreenOf, hq2, hq5]

/-- Witness for C5 at the initial state, an idle tick, and the concrete
queue lengths 2 and 7. -/
theorem adaptive_green_bounds_witness :
    minGreenOf 2 = 30 ∧ minGreenOf 7 = 96 ∧ maxGreenOf 7 = 205 :=
  ⟨(adaptive_green_bounds initState inp0).2.1 2 (by decide),
   (adaptive_green_bounds initState inp0).2.2.2.2.1,
   (adaptive_green_bounds initState inp0).2.2.2.2.2⟩

/-- Claim C6: in GREEN, once the incremented state timer exceeds the
current min-green and the fuzzy score is below the switch threshold 35,
the tick moves the FSM to YELLOW, resets the timer to 0, and turns the
active approach's light yellow. -/
theorem green_switch (s : FSMState) (inp : TickInput)
    (hs : s.fsm_state = FSMPhase.GREEN)
    (htimer : s.state_timer + 1 > minGreenOf (activeLoad s inp))
    (hscore : fuzzyScore s inp < 35) :
    (update_fsm s inp).fsm_state = FSMPhase.YELLOW ∧
    (update_fsm s inp).state_timer = 0 ∧
    (update_fsm s inp).lights (activeLane s) = LightColor.yellow := by
  simp only [update_fsm, hs]
  split_ifs with h
  · refine ⟨rfl, rfl, ?_⟩
    dsimp only [setLight]
    rw [if_pos rfl]
  · exact absurd (Or.inl ⟨htimer, hscore⟩) h

theorem fuzzy_score_s6_lt : fuzzyScore s6 inp6 < 35 := by
  have h1 : activeLoad s6 inp6 = 0 := rfl
  have h2 : maxWaitingOf s6 inp6 = 5 := rfl
  have h3 : inp6.max_wait_time_sec = 50 := rfl
  have h4 : inp6.flow_ratio = 1 := rfl
  unfold fuzzyScore
  rw [h1, h2, h3, h4]
  push_cast
  rw [calculate_empty_eval]
  norm_num

/-- Witness for C6: a GREEN state with timer 96 and an input that makes
the fuzzy score 0 (< 35) while min-green is 30. -/
theorem green_switch_witness :
    (update_fsm s6 inp6).fsm_state = FSMPhase.YELLOW ∧
    (update_fsm s6 inp6).state_timer = 0 ∧
    (update_fsm s6 inp6).lights (activeLane s6) = LightColor.yellow :=
  green_switch s6 inp6 rfl (by decide) fuzzy_score_s6_lt

/-- Claim C9: in ALL_RED the FSM advances - phase index incremented by one
in the cyclic order, state set to GREEN, timer reset - exactly when no car
occupies the central box and the incremented timer exceeds 15; otherwise
(box occupied, for however long, or timer ≤ 15) state, phase index and
lights are unchanged, so ALL_RED has no maximum duration. -/
theorem all_red_behavior (s : FSMState) (inp : TickInput)
    (hs : s.fsm_state = FSMPhase.ALL_RED) :
    ((boxOccupied inp = false ∧ s.state_timer + 1 > 15) →
      (update_fsm s inp).fsm_state = FSMPhase.GREEN ∧
      (update_fsm s inp).current_phase_idx = s.current_phase_idx + 1 ∧
      (update_fsm s inp).state_timer = 0) ∧
    (¬(boxOccupied inp = false ∧ s.state_timer + 1 > 15) →
      (update_fsm s inp).fsm_state = FSMPhase.ALL_RED ∧
      (update_fsm s inp).current_phase_idx = s.current_phase_idx ∧
      (update_fsm s inp).lights = s.lights) := by
  simp only [update_fsm, hs]
  constructor
  · intro h
    rw [if_pos h]
    exact ⟨rfl, rfl, rfl⟩
  · intro h
    rw [if_neg h]
    exact ⟨rfl, rfl, rfl⟩

/-- Witness for C9: an ALL_RED state with timer 20 and an empty
intersection advances to GREEN on the next phase. -/
theorem all_red_behavior_witness :
    (update_fsm sAR inp0).fsm_state = FSMPhase.GREEN ∧
    (update_fsm sAR inp0).current_phase_idx = sAR.current_phase_idx + 1 ∧
    (update_fsm sAR inp0).state_timer = 0 :=
  (all_red_behavior sAR inp0 rfl).1 ⟨rfl, by decide⟩

-- Vehicle kinematics (C4, C10).

theorem targetSpeedOf_bounds (c : Car) (light : LightColor) (ahead : Option Car)
    (ha : ∀ ca : Car, ahead = some ca → 0 ≤ ca.speed) :
    0 ≤ targetSpeedOf c light ahead ∧ targetSpeedOf c light ahead ≤ max_speed := by
  cases ahead with
  | none =>
    simp only [targetSpeedOf]
    split_ifs <;> norm_num [max_speed]
  | some ca =>
    have hca := ha ca rfl
    simp only [targetSpeedOf]
    split_ifs <;>
      refine ⟨?_, ?_⟩ <;>
      first
        | exact le_min (by norm_num [max_speed]) hca
        | exact min_le_left _ _
        | norm_num [max_speed]

theorem rate_limited (sp t : ℚ) (h0 : 0 ≤ sp) (h8 : sp ≤ max_speed)
    (ht0 : 0 ≤ t) (ht8 : t ≤ max_speed) :
    max 0 (sp - decel) ≤
      (if sp < t then min (sp + accel) t else if sp > t then max (sp - decel) t else sp) ∧
    (if sp < t then min (sp + accel) t else if sp > t then max (sp - decel) t else sp) ≤
      min max_speed (sp + accel) ∧
    0 ≤ (if sp < t then min (sp + accel) t else if sp > t then max (sp - decel) t else sp) ∧
    (if sp < t then min (sp + accel) t else if sp > t then max (sp - decel) t else sp) ≤
      max_speed := by
  simp only [max_speed, accel, decel] at h8 ht8 ⊢
  split_ifs with hlt hgt
  · refine ⟨?_, ?_, ?_, ?_⟩
    · exact max_le (le_min (by linarith) (by linarith)) (le_min (by linarith) (by linarith))
    · exact le_min (le_trans (min_le_right _ _) ht8) (min_le_left _ _)
    · exact le_min (by linarith) ht0
    · exact le_trans (min_le_right _ _) ht8
  · refine ⟨?_, ?_, ?_, ?_⟩
    · exact max_le (le_trans ht0 (le_max_right _ _)) (le_max_left _ _)
    · exact le_min (max_le (by linarith) (by linarith)) (max_le (by linarith) (by linarith))
    · exact le_trans ht0 (le_max_right _ _)
    · exact max_le (by linarith) (by linarith)
  · exact ⟨max_le h0 (by linarith), le_min h8 (by linarith), h0, h8⟩

theorem car_update_speed_eq (c : Car) (light : LightColor) (ahead : Option Car)
    (hv : c.is_virtual = false) :
    (c.update light ahead).speed =
      (if c.speed < targetSpeedOf c light ahead
        then min (c.speed + accel) (targetSpeedOf c light ahead)
        else if c.speed > targetSpeedOf c light ahead
          then max (c.speed - decel) (targetSpeedOf c light ahead)
          else c.speed) := by
  have hnv : ¬(c.is_virtual = true) := by simp [hv]
  simp only [Car.update]
  rw [if_neg hnv]

/-- Claim C4: for a non-virtual car with speed in [0, max_speed] and a
car-ahead argument (if any) of non-negative speed, one Car.update under any
light color yields a speed within [max(0, prev − decel),
min(max_speed, prev + accel)] intersected with [0, max_speed], where
accel = 0.5 and decel = 1.0. -/
theorem car_update_speed_bounds (c : Car) (light : LightColor) (ahead : Option Car)
    (hv : c.is_virtual = false) (h0 : 0 ≤ c.speed) (h8 : c.speed ≤ max_speed)
    (ha : ∀ ca : Car, ahead = some ca → 0 ≤ ca.speed) :
    (max 0 (c.speed - decel) ≤ (c.update light ahead).speed ∧
     (c.update light ahead).speed ≤ min max_speed (c.speed + accel) ∧
     0 ≤ (c.update light ahead).speed ∧
     (c.update light ahead).speed ≤ max_speed) ∧
    accel = 0.5 ∧ decel = 1.0 := by
  have ht := targetSpeedOf_bounds c light ahead ha
  have h := rate_limited c.speed (targetSpeedOf c light ahead) h0 h8 ht.1 ht.2
  rw [car_update_speed_eq c light ahead hv]
  exact ⟨h, rfl, rfl⟩

/-- Witness for C4: a concrete free-flowing car at speed 3 accelerates
within the admissible band. -/
theorem car_update_speed_bounds_witness :
    (max 0 (cA.speed - decel) ≤ (cA.update LightColor.green none).speed ∧
     (cA.update LightColor.green none).speed ≤ min max_speed (cA.speed + accel) ∧
     0 ≤ (cA.update LightColor.green none).speed ∧
     (cA.update LightColor.green none).speed ≤ max_speed) ∧
    accel = 0.5 ∧ decel = 1.0 :=
  car_update_speed_bounds cA LightColor.green none rfl (by norm_num [cA])
    (by norm_num [cA, max_speed]) (fun ca h => nomatch h)

/-- Claim C10: updating a virtual car is a no-op; every field (position,
speed, wait_time, counted, and the rest) is unchanged. -/
theorem virtual_update_noop (c : Car) (light : LightColor) (ahead : Option Car)
    (hv : c.is_virtual = true) : c.update light ahead = c := by
  simp only [Car.update]
  rw [if_pos hv]

/-- Witness for C10: a concrete virtual car under a green light. -/
theorem virtual_update_noop_witness : vCar.update LightColor.green none = vCar :=
  virtual_update_noop vCar LightColor.green none rfl
